import Mathlib

/-!
# Verification of the MDICI dashboard derivation, aggregation and filter logic

Shallow embedding of the row-level deriver in `src/export_to_csv.py`
(`calculate_third_friday`, the `Days Since Kickoff` / `Expected DE Completion` /
`Status` / `Days Until SLA` columns of `export_all_data`), of the SLA-rate
aggregations and the search/filter pipeline of `src/streamlit_app.py`, and of
the CSV export/reload round trip.

Dates are modelled as proleptic-Gregorian day ordinals (`Nat`), exactly the
value Python's `datetime.date.toordinal()` gives: ordinal 1 is 0001-01-01,
a Monday. Adding a `timedelta(days = 1)` is `+ 1` on the ordinal, and
subtracting dates gives the signed day difference (`Int`). Nullable values
(`None` / `NaN` / `NaT` in the source) are `Option`; the one place where the
program distinguishes `None` from `NaN` — the `Days Since Kickoff` cell that
`get_status` reads, whose dtype `Series.apply` infers column-wide — carries
the three-valued `PdValue` instead.
-/

/-- Python's `date.weekday()` of a day ordinal (Monday = 0, …, Friday = 4,
Sunday = 6). Ordinal 1 (0001-01-01) is a Monday, so the weekday of ordinal
`n` is `(n - 1) % 7`, written `(n + 6) % 7` to stay in `Nat`. -/
def weekday (n : Nat) : Nat := (n + 6) % 7

/-- The `while friday_count < 3` loop of `calculate_third_friday`
(src/export_to_csv.py lines 64-71): starting from the kickoff ordinal with
`friday_count = 0`, first advance the date by one day, then bump the count
when the new day is a Friday; stop when the count reaches 3.  The loop
terminates because every step either passes a Friday (at most 3 times) or
moves one day closer to the next Friday. -/
def thirdFridayAux (cur : Nat) (cnt : Nat) : Nat :=
  if h : cnt < 3 then
    thirdFridayAux (cur + 1) (if weekday (cur + 1) = 4 then cnt + 1 else cnt)
  else
    cur
termination_by (3 - cnt) * 7 + (11 - cur % 7) % 7
decreasing_by
  simp only [weekday] at *
  split <;> omega

/-- `calculate_third_friday` (src/export_to_csv.py lines 53-71): `None` for a
missing kickoff date, otherwise the result of the day-stepping loop started at
the kickoff ordinal with count 0. -/
def calculate_third_friday : Option Nat → Option Nat
  | none => none
  | some k => some (thirdFridayAux k 0)

/-- One unfolding of the loop while the count is still below 3. -/
theorem thirdFridayAux_step (cur cnt : Nat) (h : cnt < 3) :
    thirdFridayAux cur cnt
      = thirdFridayAux (cur + 1) (if weekday (cur + 1) = 4 then cnt + 1 else cnt) := by
  rw [thirdFridayAux]
  simp [h]

/-- The loop exits as soon as the count reaches 3. -/
theorem thirdFridayAux_done (cur cnt : Nat) (h : ¬ cnt < 3) :
    thirdFridayAux cur cnt = cur := by
  rw [thirdFridayAux]
  simp [h]

/-- Shifting the start of the loop by one week shifts its result by one week:
the weekday pattern seen by the loop is 7-periodic. -/
theorem thirdFridayAux_shift (cur cnt : Nat) :
    thirdFridayAux (cur + 7) cnt = thirdFridayAux cur cnt + 7 := by
  induction cur, cnt using thirdFridayAux.induct with
  | case1 cur cnt h ih =>
      rw [thirdFridayAux_step cur cnt h, thirdFridayAux_step (cur + 7) cnt h]
      have hw : weekday (cur + 7 + 1) = weekday (cur + 1) := by
        simp only [weekday]
        omega
      rw [hw]
      have hc : cur + 7 + 1 = cur + 1 + 7 := by omega
      rw [hc]
      exact ih
  | case2 cur cnt h =>
      rw [thirdFridayAux_done cur cnt h, thirdFridayAux_done (cur + 7) cnt h]

/-- Day offset from the kickoff ordinal to the third strictly-later Friday,
as a function of the kickoff's residue mod 7 (residue 5 is a Friday). -/
def fridayOffset : Nat → Nat
  | 0 => 19
  | 1 => 18
  | 2 => 17
  | 3 => 16
  | 4 => 15
  | 5 => 21
  | _ => 20

/-- The loop evaluated on each of the seven weekday residues of the start. -/
theorem thirdFridayAux_base : ∀ r, r < 7 → thirdFridayAux r 0 = r + fridayOffset r := by
  intro r hr
  interval_cases r <;> simp [thirdFridayAux, weekday, fridayOffset]

/-- Closed form of the loop on an arbitrary start `7 * q + r`. -/
theorem thirdFridayAux_closed (q : Nat) :
    ∀ r, r < 7 → thirdFridayAux (7 * q + r) 0 = 7 * q + r + fridayOffset r := by
  induction q with
  | zero =>
      intro r hr
      simpa using thirdFridayAux_base r hr
  | succ n ih =>
      intro r hr
      have hc : 7 * (n + 1) + r = (7 * n + r) + 7 := by ring
      rw [hc, thirdFridayAux_shift, ih r hr]
      ring

/-- Closed form of the loop: the result exceeds the start by
`fridayOffset (start % 7)`. -/
theorem thirdFridayAux_eq (k : Nat) :
    thirdFridayAux k 0 = k + fridayOffset (k % 7) := by
  obtain ⟨q, r, hr, rfl⟩ : ∃ q r, r < 7 ∧ k = 7 * q + r :=
    ⟨k / 7, k % 7, by omega, by omega⟩
  have hmod : (7 * q + r) % 7 = r := by omega
  rw [hmod, thirdFridayAux_closed q r hr]

/-- Specification-side definition, following the spec's words ("add the offset
to reach the third subsequent Friday, ... never the kickoff date itself even if
it falls on a Friday"): the first Friday strictly after day `d`, in closed
form. -/
def nextFridayAfter (d : Nat) : Nat := d + (7 - (d + 2) % 7)

/-- Specification-side definition: the third Friday strictly after `k`. -/
def thirdFridayAfterSpec (k : Nat) : Nat :=
  nextFridayAfter (nextFridayAfter (nextFridayAfter k))

/-- `nextFridayAfter d` really is the least Friday strictly after `d`. -/
theorem nextFridayAfter_least (d : Nat) :
    d < nextFridayAfter d ∧ weekday (nextFridayAfter d) = 4 ∧
      ∀ x, d < x → weekday x = 4 → nextFridayAfter d ≤ x := by
  refine ⟨?_, ?_, ?_⟩
  · simp only [nextFridayAfter]
    omega
  · simp only [nextFridayAfter, weekday]
    omega
  · intro x hx hw
    simp only [weekday] at hw
    simp only [nextFridayAfter]
    omega

/-- The loop's closed form agrees with the spec-side third Friday. -/
theorem thirdFridayAux_eq_spec (k : Nat) :
    thirdFridayAux k 0 = thirdFridayAfterSpec k := by
  rw [thirdFridayAux_eq]
  have h7 : k % 7 < 7 := Nat.mod_lt _ (by omega)
  simp only [thirdFridayAfterSpec, nextFridayAfter]
  have : k % 7 = 0 ∨ k % 7 = 1 ∨ k % 7 = 2 ∨ k % 7 = 3 ∨ k % 7 = 4 ∨
      k % 7 = 5 ∨ k % 7 = 6 := by omega
  rcases this with h | h | h | h | h | h | h <;> rw [h] <;> simp [fridayOffset] <;> omega

/-- The 1900-01-01 placeholder sentinel as a day ordinal
(`date(1900, 1, 1).toordinal() = 693596`, a Monday). -/
def placeholderOrdinal : Nat := 693596

/-- The `Days Since Kickoff` column (src/export_to_csv.py lines 129-131):
`(date.today() - x.date()).days` whenever the kickoff cell holds a timestamp
(`pd.notna(x) and hasattr(x, 'date')`), `None` otherwise.  No check against the
1900-01-01 placeholder is made: any non-null timestamp, the sentinel included,
is used as the anchor. -/
def days_since_kickoff (today : Nat) : Option Nat → Option Int
  | none => none
  | some k => some ((today : Int) - (k : Int))

/-- The `Expected DE Completion` column (src/export_to_csv.py line 134):
`df['Kick-Off Date'].apply(calculate_third_friday)`. -/
def expected_de_completion (kick : Option Nat) : Option Nat :=
  calculate_third_friday kick

/-- The value a cell of the `Days Since Kickoff` column holds when `get_status`
reads it.  The lambda of lines 129-131 returns Python ints and `None`s, but
`Series.apply` infers the result dtype: as soon as any row of the table
produced an integer, the column is coerced to float64 and every `None` becomes
`NaN`; only an all-`None` column keeps dtype object with its `None`s.  So a
cell is `None`, `NaN`, or a number. -/
inductive PdValue where
  | none
  | nan
  | val (d : Int)
deriving DecidableEq

/-- Python's `days is None` on a cell: `NaN` is **not** `None`. -/
def pdIsNone : PdValue → Bool
  | PdValue.none => true
  | _ => false

/-- A `days <= c` comparison as a truth value, the NumPy way: a number
compares numerically and `NaN <= c` is `False`.  (`None <= c` would raise; it
is unreachable behind the `is None` guard, and `get_statusE` below models the
raising.) -/
def pdLe : PdValue → Int → Bool
  | PdValue.val d, c => decide (d ≤ c)
  | _, _ => false

/-- The cell a row's `Option Int` days value becomes in a float64-coerced
column: `None` turns into `NaN`.  `Series.apply` produces this column whenever
at least one row of the table holds a real kickoff date. -/
def float64Cell : Option Int → PdValue
  | Option.none => PdValue.nan
  | some d => PdValue.val d

/-- `get_status` (src/export_to_csv.py lines 137-162) on one row: the raw
`Project State` string and the row's `Days Since Kickoff` cell, which carries
`None`, `NaN` or a number depending on the column's inferred dtype. -/
def get_status (project_state : String) (days : PdValue) : String :=
  if project_state = "Design" then
    if pdIsNone days then "No Kickoff Date"
    else if pdLe days 14 then "On Track"
    else if pdLe days 21 then "Attention Needed"
    else "Overdue"
  else if project_state = "Firewall" then "Waiting for Firewall"
  else if project_state = "Testing" then "Pending Updates from Site"
  else if project_state = "Intake" then "In Intake Process"
  else if project_state = "Hold" then "On Hold"
  else if project_state = "Complete" ∨ project_state = "Security" then "Completed"
  else project_state

/-- Python's `days <= c` comparison as the source would run it: comparing
`None` to an integer raises a `TypeError` (modelled as `Except.error`), while
`NaN <= c` is quietly `False`. -/
def pyLe (days : PdValue) (c : Int) : Except String Bool :=
  match days with
  | PdValue.none => Except.error "TypeError"
  | PdValue.nan => Except.ok false
  | PdValue.val d => Except.ok (decide (d ≤ c))

/-- `get_status` re-embedded with Python's fallible comparison semantics: the
`days is None` guard (line 143) runs before any `days <= _` comparison, so the
comparisons only ever see a float. -/
def get_statusE (project_state : String) (days : PdValue) : Except String String :=
  if project_state = "Design" then
    if pdIsNone days then Except.ok "No Kickoff Date"
    else do
      if (← pyLe days 14) then pure "On Track"
      else if (← pyLe days 21) then pure "Attention Needed"
      else pure "Overdue"
  else if project_state = "Firewall" then Except.ok "Waiting for Firewall"
  else if project_state = "Testing" then Except.ok "Pending Updates from Site"
  else if project_state = "Intake" then Except.ok "In Intake Process"
  else if project_state = "Hold" then Except.ok "On Hold"
  else if project_state = "Complete" ∨ project_state = "Security" then Except.ok "Completed"
  else Except.ok project_state

/-- The `Days Until SLA` column (src/export_to_csv.py lines 167-171):
`(row['Expected DE Completion'] - date.today()).days` when the expected
completion is non-null **and the raw `Project State` equals `'Design'`**,
`None` otherwise. -/
def days_until_sla (today : Nat) (project_state : String) (expected : Option Nat) :
    Option Int :=
  match expected with
  | none => none
  | some e => if project_state = "Design" then some ((e : Int) - (today : Int)) else none

/-- The `Days to Testing Info Sent` / `Days to Completion` columns
(src/export_to_csv.py lines 174-184): the signed day difference when both
milestone dates are non-null, `None` otherwise. -/
def milestone_days (later earlier : Option Nat) : Option Int :=
  match later, earlier with
  | some l, some e => some ((l : Int) - (e : Int))
  | _, _ => none

/-- The raw-to-effective state renaming of the dashboard
(src/streamlit_app.py line 916: `replace('Firewall', 'Design')`): the raw
`Firewall` label collapses onto `Design`. -/
def effectiveState (s : String) : String :=
  if s = "Firewall" then "Design" else s

/-!
## SLA compliance rates (src/streamlit_app.py)

A group of performance records is carried as the list of its duration cells
(`Days_to_DE_Completion` / `Days_to_Testing`): `none` is a `NaN` cell.
Percentages are modelled in `ℚ` (the float arithmetic of the source on these
small integer counts is exact).
-/

/-- `perf[perf['Days_to_DE_Completion'].notna()]` (line 352): the non-null
duration values of the group. -/
def valid_de (perf : List (Option Int)) : List Int :=
  perf.filterMap id

/-- `sla_met = len(valid_de[valid_de <= 21]) if len(valid_de) > 0 else 0`
(line 353). -/
def sla_met (perf : List (Option Int)) : Nat :=
  if 0 < (valid_de perf).length then
    (valid_de perf).countP (fun d => decide (d ≤ 21))
  else 0

/-- `sla_rate = (sla_met / len(valid_de) * 100) if len(valid_de) > 0 else 0`
(lines 354 and 379): the 6-month / 12-month period SLA compliance metric. -/
def sla_rate (perf : List (Option Int)) : ℚ :=
  if 0 < (valid_de perf).length then
    (sla_met perf : ℚ) / ((valid_de perf).length : ℚ) * 100
  else 0

/-- The monthly-trend rate of one month group (lines 1001-1003):
`(len(x[x['Days_to_Testing'] <= 21]) / len(x) * 100) if len(x) > 0 else 0`.
A `NaN <= 21` comparison is `False` in pandas, so null durations are skipped by
the numerator but **are** counted by the denominator `len(x)`. -/
def monthly_sla_rate (x : List (Option Int)) : ℚ :=
  if 0 < x.length then
    ((x.countP fun d? => match d? with | some d => decide (d ≤ 21) | none => false) : ℚ)
      / (x.length : ℚ) * 100
  else 0

/-- Specification-side formula, following the spec's words: `count(duration ≤
21) / count(duration not null)`, as a percentage, 0 when the denominator is
zero. -/
def sla_rate_specFormula (x : List (Option Int)) : ℚ :=
  if 0 < (x.filterMap id).length then
    ((x.filterMap id).countP (fun d => decide (d ≤ 21)) : ℚ)
      / ((x.filterMap id).length : ℚ) * 100
  else 0

/-- Counting the compliant durations among the non-null ones is the same as
counting the rows whose duration cell compares `≤ 21` the pandas way. -/
theorem countP_le_filterMap (xs : List (Option Int)) :
    (xs.filterMap id).countP (fun d => decide (d ≤ 21))
      = xs.countP (fun d? => match d? with | some d => decide (d ≤ 21) | none => false) := by
  induction xs with
  | nil => rfl
  | cons x t ih =>
      cases x <;> simp [List.filterMap_cons, List.countP_cons, ih]

/-!
## The search/filter pipeline (src/streamlit_app.py lines 509-561)

One row carries the fields the pipeline reads.  Text cells are `Option String`
(`none` is a missing/NaN cell); `Project State` and `Status` are always
present.
-/

structure Row where
  defectId : Option String
  designEngineer : Option String
  projectState : String
  status : String
  facility : Option String
  serviceLine : Option String
  asaAssigned : Option String
  opw : Option String
  comments : Option String
  kickOff : Option Int
deriving DecidableEq

/-- pandas `astype(str)` on one cell: a missing (`NaN`) value stringifies to
the literal text `"nan"`; a present string is unchanged. -/
def pyStr : Option String → String
  | none => "nan"
  | some s => s

/-- Substring containment on character lists (structural helper for
`str.contains`). -/
def containsSubCL (hay needle : List Char) : Bool :=
  needle.isPrefixOf hay ||
    match hay with
    | [] => false
    | _ :: t => containsSubCL t needle

/-- `Series.str.contains(needle, case=False)` on one cell: case-insensitive
containment of `needle` in `hay` (both sides lowercased character by
character; needles carrying no regex metacharacter, the only ones the claims
use, make the regex match plain containment). -/
def ciContains (hay needle : String) : Bool :=
  containsSubCL (hay.data.map Char.toLower) (needle.data.map Char.toLower)

/-- The week-kickoff preset mask (lines 531-535): keep a row when its kickoff
date lies between today and seven days from now; a missing date (`NaT`)
compares `False`. -/
def weekKickoffPred (today : Int) (k : Option Int) : Bool :=
  match k with
  | some d => decide (today ≤ d) && decide (d ≤ today + 7)
  | none => false

/-- The user-selected filter configuration of one rerun (the widget values
read at lines 509-561). -/
structure FilterConfig where
  selectedStates : List String
  selectedEngineer : String
  filterCritical : Bool
  filterWeekKickoffs : Bool
  today : Int
  defectSearch : String
  selectedFacility : String
  selectedServiceLine : String
  selectedAsa : String
  opwSearch : String
  ipSearch : String

/-- The filter pipeline of src/streamlit_app.py lines 509-561, in source
order: each active predicate narrows the frame produced by the previous one
(`filtered_df = filtered_df[mask]`), so predicate kinds compose by AND; the
IP search ORs its two field masks (`opw_mask | comments_mask`) before
narrowing.  An empty text input is falsy and leaves the frame untouched, as
does the `'All'` sentinel of the select boxes. -/
def applyFilters (cfg : FilterConfig) (rows : List Row) : List Row :=
  let f1 := if cfg.selectedStates ≠ [] then
      rows.filter (fun r => cfg.selectedStates.contains r.projectState) else rows
  let f2 := if cfg.selectedEngineer ≠ "All" then
      f1.filter (fun r => r.designEngineer == some cfg.selectedEngineer) else f1
  let f3 := if cfg.filterCritical then
      f2.filter (fun r => r.status == "Overdue" || r.status == "Attention Needed") else f2
  let f4 := if cfg.filterWeekKickoffs then
      f3.filter (fun r => weekKickoffPred cfg.today r.kickOff) else f3
  let f5 := if cfg.defectSearch ≠ "" then
      f4.filter (fun r => ciContains (pyStr r.defectId) cfg.defectSearch) else f4
  let f6 := if cfg.selectedFacility ≠ "All" then
      f5.filter (fun r => r.facility == some cfg.selectedFacility) else f5
  let f7 := if cfg.selectedServiceLine ≠ "All" then
      f6.filter (fun r => r.serviceLine == some cfg.selectedServiceLine) else f6
  let f8 := if cfg.selectedAsa ≠ "All" then
      f7.filter (fun r => ciContains (pyStr r.asaAssigned) cfg.selectedAsa) else f7
  let f9 := if cfg.opwSearch ≠ "" then
      f8.filter (fun r => ciContains (pyStr r.opw) cfg.opwSearch) else f8
  if cfg.ipSearch ≠ "" then
    f9.filter (fun r =>
      ciContains (pyStr r.opw) cfg.ipSearch || ciContains (pyStr r.comments) cfg.ipSearch)
  else f9

/-- Membership in a conditionally applied filter stage. -/
theorem mem_filterIf {α} (c : Prop) [Decidable c] (p : α → Bool) (l : List α) (r : α) :
    (r ∈ if c then l.filter p else l) ↔ r ∈ l ∧ (c → p r = true) := by
  split
  · next h => simp [List.mem_filter, h]
  · next h => simp [h]

/-!
## CSV export / reload round trip

`main` (src/export_to_csv.py lines 239-241) writes the derived table with
`to_csv`; `load_project_data` (src/streamlit_app.py lines 52-79) reads it back
with `read_csv` and reparses the date columns (`Kick-Off Date`, `Expected DE
Completion`, `Testing Info Sent`, `Actual Go-Live Date`) with
`pd.to_datetime(..., errors='coerce')`.

A written text cell is modelled by its digit content: a date cell carries the
decimal digit list of its day ordinal (standing for the ISO-8601 rendering
`to_csv` produces — an injective textual encoding of the ordinal), a numeric
cell the sign and digit list of its integer value, and a missing value the
empty cell (`none`).  `to_datetime(..., errors='coerce')` on a well-formed
exported cell returns the encoded date, and `NaT` on the empty cell; `read_csv`
reads a numeric cell back as the encoded number and the empty cell as `NaN`.
-/

/-- One row of the derived table, with the milestone dates and every derived
field the export produces. -/
structure DerivedRow where
  kickOff : Option Nat
  testingInfoSent : Option Nat
  actualGoLive : Option Nat
  daysSinceKickoff : Option Int
  expectedCompletion : Option Nat
  status : String
  daysUntilSla : Option Int
  daysToTestingInfoSent : Option Int
  daysToCompletion : Option Int
deriving DecidableEq

/-- `to_csv` on a date cell: the decimal digits of the day ordinal (standing
for its ISO rendering); missing dates (`NaT`) leave the cell empty. -/
def dateToCell : Option Nat → Option (List Nat)
  | none => none
  | some n => some (Nat.digits 10 n)

/-- `pd.to_datetime(..., errors='coerce')` on a well-formed exported date
cell: the empty cell coerces to `NaT`, a date text parses back to its
ordinal. -/
def cellToDate : Option (List Nat) → Option Nat
  | none => none
  | some ds => some (Nat.ofDigits 10 ds)

/-- `to_csv` on a numeric cell: sign and decimal digits of the value; a
missing value (`NaN`) leaves the cell empty. -/
def intToCell : Option Int → Option (Bool × List Nat)
  | none => none
  | some i => some (decide (i < 0), Nat.digits 10 i.natAbs)

/-- `read_csv` on a numeric cell: the empty cell reads as `NaN`, a numeral
reads back as its value. -/
def cellToInt : Option (Bool × List Nat) → Option Int
  | none => none
  | some (s, ds) =>
      some (if s then -(((Nat.ofDigits 10 ds : Nat) : Int)) else ((Nat.ofDigits 10 ds : Nat) : Int))

/-- One CSV line of the exported file, cell by cell. -/
structure CsvRow where
  kickOff : Option (List Nat)
  testingInfoSent : Option (List Nat)
  actualGoLive : Option (List Nat)
  daysSinceKickoff : Option (Bool × List Nat)
  expectedCompletion : Option (List Nat)
  status : String
  daysUntilSla : Option (Bool × List Nat)
  daysToTestingInfoSent : Option (Bool × List Nat)
  daysToCompletion : Option (Bool × List Nat)

/-- `projects_df.to_csv(...)` on one derived row (src/export_to_csv.py lines
239-241). -/
def writeRow (r : DerivedRow) : CsvRow where
  kickOff := dateToCell r.kickOff
  testingInfoSent := dateToCell r.testingInfoSent
  actualGoLive := dateToCell r.actualGoLive
  daysSinceKickoff := intToCell r.daysSinceKickoff
  expectedCompletion := dateToCell r.expectedCompletion
  status := r.status
  daysUntilSla := intToCell r.daysUntilSla
  daysToTestingInfoSent := intToCell r.daysToTestingInfoSent
  daysToCompletion := intToCell r.daysToCompletion

/-- `load_project_data` on one CSV line (src/streamlit_app.py lines 52-79):
`read_csv` reads every cell, then the date columns are reparsed with
`pd.to_datetime(..., errors='coerce')`; no derived column is recomputed. -/
def loadRow (c : CsvRow) : DerivedRow where
  kickOff := cellToDate c.kickOff
  testingInfoSent := cellToDate c.testingInfoSent
  actualGoLive := cellToDate c.actualGoLive
  daysSinceKickoff := cellToInt c.daysSinceKickoff
  expectedCompletion := cellToDate c.expectedCompletion
  status := c.status
  daysUntilSla := cellToInt c.daysUntilSla
  daysToTestingInfoSent := cellToInt c.daysToTestingInfoSent
  daysToCompletion := cellToInt c.daysToCompletion

/-- Reparsing a written date cell gives back the date. -/
theorem cellToDate_dateToCell (d : Option Nat) : cellToDate (dateToCell d) = d := by
  cases d with
  | none => rfl
  | some n => simp [dateToCell, cellToDate, Nat.ofDigits_digits]

/-- Reading a written numeric cell gives back the number. -/
theorem cellToInt_intToCell (i : Option Int) : cellToInt (intToCell i) = i := by
  cases i with
  | none => rfl
  | some v =>
      simp only [intToCell, cellToInt, Nat.ofDigits_digits, Option.some.injEq]
      split
      · next hs =>
          have hv : v < 0 := by simpa using hs
          omega
      · next hs =>
          have hv : ¬ v < 0 := by simpa using hs
          omega

/-- The row-level derivation of `export_all_data` (src/export_to_csv.py lines
128-184) on one record of a table whose `Days Since Kickoff` column was
coerced to float64 — which `Series.apply` does whenever at least one row of
the table holds a real kickoff date (`inferDaysColumn` below models the
column-level inference): a missing kickoff therefore reaches `get_status` as
`NaN` (`float64Cell`), not as `None`. -/
def deriveRow (today : Nat) (state : String) (kick testing golive : Option Nat) :
    DerivedRow where
  kickOff := kick
  testingInfoSent := testing
  actualGoLive := golive
  daysSinceKickoff := days_since_kickoff today kick
  expectedCompletion := expected_de_completion kick
  status := get_status state (float64Cell (days_since_kickoff today kick))
  daysUntilSla := days_until_sla today state (expected_de_completion kick)
  daysToTestingInfoSent := milestone_days testing kick
  daysToCompletion := milestone_days golive kick

/-- One input record as `export_all_data` reads it from the database: the raw
project state and the three milestone dates. -/
structure InputRecord where
  state : String
  kick : Option Nat
  testing : Option Nat
  golive : Option Nat

/-- `Series.apply`'s dtype inference on the int/`None` results of the days
lambda (src/export_to_csv.py lines 129-131): when at least one row produced an
integer the column is coerced to float64 and every `None` becomes `NaN`; only
an all-`None` result column keeps dtype object with its `None`s. -/
def inferDaysColumn (col : List (Option Int)) : List PdValue :=
  if col.any Option.isSome then
    col.map float64Cell
  else
    col.map (fun _ => PdValue.none)

/-- The derivation of `export_all_data` over a whole table (src/export_to_csv.py
lines 128-184): the days column is computed row by row, passes through
`Series.apply`'s dtype inference, and `get_status` then reads each row's
(possibly `NaN`) cell; the other derived columns are row-local. -/
def export_all_data (today : Nat) (tbl : List InputRecord) : List DerivedRow :=
  let daysCol := inferDaysColumn (tbl.map (fun r => days_since_kickoff today r.kick))
  (tbl.zip daysCol).map (fun rc =>
    { kickOff := rc.1.kick
      testingInfoSent := rc.1.testing
      actualGoLive := rc.1.golive
      daysSinceKickoff := days_since_kickoff today rc.1.kick
      expectedCompletion := expected_de_completion rc.1.kick
      status := get_status rc.1.state rc.2
      daysUntilSla := days_until_sla today rc.1.state (expected_de_completion rc.1.kick)
      daysToTestingInfoSent := milestone_days rc.1.testing rc.1.kick
      daysToCompletion := milestone_days rc.1.golive rc.1.kick })

/-- Bounds of the friday offset table: between 15 and 21 days. -/
theorem fridayOffset_bounds (r : Nat) (h : r < 7) :
    15 ≤ fridayOffset r ∧ fridayOffset r ≤ 21 := by
  interval_cases r <;> simp [fridayOffset]

/-- C1: the claim says that for a record whose kickoff equals the 1900-01-01
placeholder sentinel, `Days Since Kickoff`, `Expected DE Completion` and
`Days Until SLA` are all null.  The code has no such guard: the sentinel is a
non-null timestamp, so on a Design record with kickoff 1900-01-01 (ordinal
693596) and today = ordinal 740000 the export computes `Days Since Kickoff` =
46404, `Expected DE Completion` = 1900-01-19 (ordinal 693614), `Days Until
SLA` = -46386, and even labels the record "Overdue" — every duration is
anchored at the sentinel. -/
theorem C1_sentinel_durations_not_nulled :
    (deriveRow 740000 "Design" (some placeholderOrdinal) none none).daysSinceKickoff
        = some 46404 ∧
    (deriveRow 740000 "Design" (some placeholderOrdinal) none none).expectedCompletion
        = some 693614 ∧
    (deriveRow 740000 "Design" (some placeholderOrdinal) none none).daysUntilSla
        = some (-46386) ∧
    (deriveRow 740000 "Design" (some placeholderOrdinal) none none).status
        = "Overdue" := by
  have he : expected_de_completion (some placeholderOrdinal) = some 693614 := by
    show some (thirdFridayAux 693596 0) = some 693614
    rw [thirdFridayAux_eq]
    decide
  refine ⟨by decide, he, ?_, by decide⟩
  show days_until_sla 740000 "Design" (expected_de_completion (some placeholderOrdinal))
      = some (-46386)
  rw [he]
  decide

/-- C2: for a record in state "Design" with a valid `days_since_kickoff` value
`d`, the derived status is "On Track" when `d ≤ 14`, "Attention Needed" when
`15 ≤ d ≤ 21` and "Overdue" when `d > 21`; in particular `d` = 14, 15, 21, 22
give "On Track", "Attention Needed", "Attention Needed", "Overdue". -/
theorem C2_design_sla_thresholds (d : Int) :
    (d ≤ 14 → get_status "Design" (PdValue.val d) = "On Track") ∧
    (15 ≤ d → d ≤ 21 → get_status "Design" (PdValue.val d) = "Attention Needed") ∧
    (21 < d → get_status "Design" (PdValue.val d) = "Overdue") ∧
    get_status "Design" (PdValue.val 14) = "On Track" ∧
    get_status "Design" (PdValue.val 15) = "Attention Needed" ∧
    get_status "Design" (PdValue.val 21) = "Attention Needed" ∧
    get_status "Design" (PdValue.val 22) = "Overdue" := by
  refine ⟨?_, ?_, ?_, by decide, by decide, by decide, by decide⟩
  · intro h
    simp [get_status, pdIsNone, pdLe, h]
  · intro h15 h21
    have h : ¬ d ≤ 14 := by omega
    simp [get_status, pdIsNone, pdLe, h, h21]
  · intro h
    have h14 : ¬ d ≤ 14 := by omega
    have h21 : ¬ d ≤ 21 := by omega
    simp [get_status, pdIsNone, pdLe, h14, h21]

/-- C3: for every valid kickoff date the expected completion produced by the
day-stepping loop is exactly the third Friday strictly after the kickoff date
(`thirdFridayAfterSpec`, the spec-side definition), which is a Friday strictly
later than the kickoff; and a kickoff falling on a Friday gets an expected
completion exactly 21 days later, never the kickoff date itself. -/
theorem C3_third_friday_after_kickoff (k : Nat) :
    calculate_third_friday (some k) = some (thirdFridayAfterSpec k) ∧
    k < thirdFridayAfterSpec k ∧
    weekday (thirdFridayAfterSpec k) = 4 ∧
    (weekday k = 4 → thirdFridayAfterSpec k = k + 21) := by
  have hspec := thirdFridayAux_eq_spec k
  have hcl := thirdFridayAux_eq k
  have he : thirdFridayAfterSpec k = k + fridayOffset (k % 7) := by rw [← hspec, hcl]
  refine ⟨?_, ?_, ?_, ?_⟩
  · show some (thirdFridayAux k 0) = some (thirdFridayAfterSpec k)
    rw [hspec]
  · have hb := fridayOffset_bounds (k % 7) (by omega)
    omega
  · simpa [thirdFridayAfterSpec] using
      (nextFridayAfter_least (nextFridayAfter (nextFridayAfter k))).2.1
  · intro hk
    have h5 : k % 7 = 5 := by
      simp only [weekday] at hk
      omega
    rw [he, h5]
    norm_num [fridayOffset]

/-- C10: the day-stepping loop of `calculate_third_friday` always terminates —
the returned date is between 15 and 21 days after the kickoff, so the body
(which advances the date by exactly one day per iteration) runs `r - k ≤ 21`
times — and the returned date is a Friday strictly after the kickoff date. -/
theorem C10_loop_bounds (k : Nat) :
    ∃ r, calculate_third_friday (some k) = some r ∧
      15 ≤ r - k ∧ r - k ≤ 21 ∧ k < r ∧ weekday r = 4 := by
  refine ⟨k + fridayOffset (k % 7), ?_, ?_, ?_, ?_, ?_⟩
  · show some (thirdFridayAux k 0) = some (k + fridayOffset (k % 7))
    rw [thirdFridayAux_eq]
  · have hb := fridayOffset_bounds (k % 7) (by omega)
    omega
  · have hb := fridayOffset_bounds (k % 7) (by omega)
    omega
  · have hb := fridayOffset_bounds (k % 7) (by omega)
    omega
  · have h : k + fridayOffset (k % 7) = thirdFridayAfterSpec k := by
      rw [← thirdFridayAux_eq, thirdFridayAux_eq_spec]
    rw [h]
    simpa [thirdFridayAfterSpec] using
      (nextFridayAfter_least (nextFridayAfter (nextFridayAfter k))).2.1

/-- Status derivation never raises: under Python's fallible comparison
semantics (`get_statusE`, where comparing `None` to an integer raises), every
input cell — `None`, `NaN` or a number — yields `Except.ok` of the very status
`get_status` computes, because the `days is None` guard runs before any
`days <= _` comparison. -/
theorem get_statusE_never_raises (project_state : String) (days : PdValue) :
    get_statusE project_state days = Except.ok (get_status project_state days) := by
  by_cases hd : project_state = "Design"
  · simp only [get_statusE, get_status, if_pos hd]
    rcases days with _ | _ | d
    · rfl
    · rfl
    · by_cases h14 : d ≤ 14
      · simp [pdIsNone, pdLe, pyLe, h14, Bind.bind, Except.bind, Pure.pure, Except.pure]
      · by_cases h21 : d ≤ 21 <;>
          simp [pdIsNone, pdLe, pyLe, h14, h21, Bind.bind, Except.bind,
            Pure.pure, Except.pure]
  · simp only [get_statusE, get_status, if_neg hd]
    split_ifs <;> rfl

/-- The C6 failing input: a two-record table, one Design record with a real
kickoff ten days old, one Design record with a missing kickoff date. -/
def c6Table : List InputRecord :=
  [ { state := "Design", kick := some 739990, testing := none, golive := none },
    { state := "Design", kick := none, testing := none, golive := none } ]

/-- C6: the claim says a Design record with a missing kickoff date (null
`days_since_kickoff`) gets status "No Kickoff Date".  The program diverges:
the days lambda does return `None` for that row, but `Series.apply` coerces
the int/`None` column to float64 as soon as any other row holds a real kickoff
— so `get_status` receives `NaN`, the `days is None` guard fails, both `<=`
comparisons are `False`, and the record is labelled **"Overdue"**.  Only the
degenerate all-`None` table keeps `None` cells and reaches "No Kickoff Date".
The never-raises half of the claim does hold (`get_statusE_never_raises`,
restated in the last conjunct). -/
theorem C6_missing_kickoff_labelled_overdue :
    (export_all_data 740000 c6Table).map DerivedRow.status = ["On Track", "Overdue"] ∧
    days_since_kickoff 740000 none = none ∧
    (export_all_data 740000
        [{ state := "Design", kick := none, testing := none, golive := none }]).map
      DerivedRow.status = ["No Kickoff Date"] ∧
    (∀ project_state days,
      get_statusE project_state days = Except.ok (get_status project_state days)) := by
  refine ⟨by decide, rfl, by decide, ?_⟩
  intro project_state days
  exact get_statusE_never_raises project_state days

/-- C9: status derivation maps each non-Design known state to its fixed label,
and a state outside the enumerated set passes through unchanged as the status
rather than being rejected. -/
theorem C9_fixed_labels_and_passthrough (days : PdValue) (st : String)
    (h1 : st ≠ "Design") (h2 : st ≠ "Firewall") (h3 : st ≠ "Testing")
    (h4 : st ≠ "Intake") (h5 : st ≠ "Hold") (h6 : st ≠ "Complete")
    (h7 : st ≠ "Security") :
    get_status "Firewall" days = "Waiting for Firewall" ∧
    get_status "Testing" days = "Pending Updates from Site" ∧
    get_status "Intake" days = "In Intake Process" ∧
    get_status "Hold" days = "On Hold" ∧
    get_status "Complete" days = "Completed" ∧
    get_status "Security" days = "Completed" ∧
    get_status st days = st := by
  refine ⟨rfl, rfl, rfl, rfl, rfl, rfl, ?_⟩
  have h67 : ¬ (st = "Complete" ∨ st = "Security") := by
    rintro (h | h) <;> [exact h6 h; exact h7 h]
  simp [get_status, h1, h2, h3, h4, h5, h67]

/-- Witness for C9 at a concrete unknown state label. -/
theorem C9_fixed_labels_and_passthrough_witness :
    get_status "Cancelled" PdValue.nan = "Cancelled" ∧
    get_status "Firewall" PdValue.nan = "Waiting for Firewall" :=
  ⟨(C9_fixed_labels_and_passthrough PdValue.nan "Cancelled" (by decide) (by decide)
      (by decide) (by decide) (by decide) (by decide) (by decide)).2.2.2.2.2.2,
   (C9_fixed_labels_and_passthrough PdValue.nan "Cancelled" (by decide) (by decide)
      (by decide) (by decide) (by decide) (by decide) (by decide)).1⟩

/-- C5 counterexample: the raw-to-effective remapping is **not** applied
before the `Days Until SLA` state comparison.  A record in raw state
"Firewall" has effective state "Design" and a non-null expected completion,
yet its `Days Until SLA` is null — where the claim says it equals
`expected_completion − today`. -/
theorem C5_counterexample_firewall_raw_state :
    effectiveState "Firewall" = "Design" ∧
    days_until_sla 740000 "Firewall" (some 693614) = none ∧
    some ((693614 : Int) - 740000) ≠ none := by
  decide

/-- C5 as amended: `Days Until SLA` equals `expected_completion − today`
exactly when the **raw** `Project State` is "Design" and the expected
completion is non-null, and is null otherwise; the raw-to-effective state
remapping is not applied at this call site. -/
theorem C5_amended_raw_state_comparison (today : Nat) (st : String) (e : Nat) :
    (st = "Design" →
      days_until_sla today st (some e) = some ((e : Int) - (today : Int))) ∧
    (st ≠ "Design" → ∀ x : Option Nat, days_until_sla today st x = none) ∧
    days_until_sla today st none = none := by
  refine ⟨?_, ?_, rfl⟩
  · intro h
    simp [days_until_sla, h]
  · intro h x
    cases x
    · rfl
    · simp [days_until_sla, h]

/-- C4 counterexample: the monthly trend does **not** use the spec formula.
For a month group with two records, one with duration 10 and one with a null
duration, `count(≤ 21)/count(not null)` is 100 %, but the code divides by the
month's total row count and reports 50 %. -/
theorem C4_counterexample_monthly_denominator :
    monthly_sla_rate [some 10, none] = 50 ∧
    sla_rate_specFormula [some 10, none] = 100 := by
  constructor
  · show (if 0 < ([some 10, none] : List (Option Int)).length then
        ((([some 10, none] : List (Option Int)).countP
          fun d? => match d? with | some d => decide (d ≤ 21) | none => false) : ℚ)
          / (([some 10, none] : List (Option Int)).length : ℚ) * 100
      else 0) = 50
    norm_num
  · show (if 0 < (([some 10, none] : List (Option Int)).filterMap id).length then
        ((([some 10, none] : List (Option Int)).filterMap id).countP
            (fun d => decide (d ≤ 21)) : ℚ)
          / ((([some 10, none] : List (Option Int)).filterMap id).length : ℚ) * 100
      else 0) = 100
    have h : ([some 10, none] : List (Option Int)).filterMap id = [10] := by decide
    rw [h]
    norm_num

/-- C4 as amended: the period metrics (6-month / 12-month) follow the spec
formula `count(duration ≤ 21) / count(duration not null) * 100`, reporting 0
when the denominator is zero, and the denominator count (`valid_de`)
distinguishes a group with no qualifying record (rate 0, denominator 0) from
ten all-non-compliant records (rate 0, denominator 10); the monthly trend
instead divides the same numerator by the month's **total** row count, null
durations included. -/
theorem C4_amended_sla_rates (x : List (Option Int)) :
    sla_rate x = sla_rate_specFormula x ∧
    monthly_sla_rate x =
      (if 0 < x.length then
        ((x.filterMap id).countP (fun d => decide (d ≤ 21)) : ℚ) / (x.length : ℚ) * 100
      else 0) ∧
    sla_rate (List.replicate 10 (some 30)) = 0 ∧
    (valid_de (List.replicate 10 (some 30))).length = 10 ∧
    sla_rate [] = 0 ∧
    (valid_de []).length = 0 := by
  refine ⟨?_, ?_, ?_, by decide, rfl, rfl⟩
  · simp only [sla_rate, sla_rate_specFormula, sla_met, valid_de]
    split
    · next h => simp [h]
    · rfl
  · simp only [monthly_sla_rate, countP_le_filterMap]
  · show (if 0 < (valid_de (List.replicate 10 (some 30))).length then
        (sla_met (List.replicate 10 (some 30)) : ℚ)
          / ((valid_de (List.replicate 10 (some 30))).length : ℚ) * 100
      else 0) = 0
    have hv : valid_de (List.replicate 10 (some 30)) = List.replicate 10 (30 : Int) := by
      decide
    have hm : sla_met (List.replicate 10 (some 30)) = 0 := by decide
    rw [hv, hm]
    norm_num

/-- The week-kickoff mask holds exactly of a present kickoff date within the
seven-day window. -/
theorem weekKickoffPred_iff (t : Int) (k : Option Int) :
    weekKickoffPred t k = true ↔ ∃ d, k = some d ∧ t ≤ d ∧ d ≤ t + 7 := by
  cases k <;> simp [weekKickoffPred]

/-- The one row of the C7 counterexample table: a Design record whose OPW and
Comments cells are both missing (`NaN`). -/
def rowNanOpw : Row where
  defectId := some "12345"
  designEngineer := some "R. Smith"
  projectState := "Design"
  status := "On Track"
  facility := some "F1"
  serviceLine := some "S1"
  asaAssigned := none
  opw := none
  comments := none
  kickOff := some 739900

/-- C7 counterexample configuration: state-membership filter for Design plus
an IP search for "a". -/
def cfgIpSearchA : FilterConfig where
  selectedStates := ["Design"]
  selectedEngineer := "All"
  filterCritical := false
  filterWeekKickoffs := false
  today := 740000
  defectSearch := ""
  selectedFacility := "All"
  selectedServiceLine := "All"
  selectedAsa := "All"
  opwSearch := ""
  ipSearch := "a"

/-- C7 configuration whose text search matches no row of the table. -/
def cfgIpSearchZzz : FilterConfig :=
  { cfgIpSearchA with ipSearch := "zzz" }

/-- C7 counterexample: a missing (`NaN`) text cell does **not** count as a
no-match.  pandas `astype(str)` turns the missing OPW and Comments cells into
the literal string "nan", so the IP search "a" matches the row and the filter
keeps it, where the claim (absent values are no-match) requires the empty
set. -/
theorem C7_counterexample_nan_cell_matches :
    rowNanOpw.opw = none ∧ rowNanOpw.comments = none ∧
    applyFilters cfgIpSearchA [rowNanOpw] = [rowNanOpw] := by
  refine ⟨rfl, rfl, ?_⟩
  decide

/-- C7 as amended: the filter layer composes its predicate kinds by logical
AND — a row survives the pipeline exactly when it satisfies every active
predicate — and the multi-field IP search ORs case-insensitive containment
over the OPW and Comments fields, where a missing cell is first stringified to
"nan" by `astype(str)` (so it matches exactly the needles contained in "nan",
rather than never matching); a state-membership filter for Design combined
with a text search matching no rows still yields the empty set, not an
error. -/
theorem C7_amended_filter_composition :
    (∀ (cfg : FilterConfig) (rows : List Row) (r : Row),
      r ∈ applyFilters cfg rows ↔
        r ∈ rows ∧
        (cfg.selectedStates ≠ [] → r.projectState ∈ cfg.selectedStates) ∧
        (cfg.selectedEngineer ≠ "All" → r.designEngineer = some cfg.selectedEngineer) ∧
        (cfg.filterCritical = true → (r.status = "Overdue" ∨ r.status = "Attention Needed")) ∧
        (cfg.filterWeekKickoffs = true → ∃ d, r.kickOff = some d ∧
          cfg.today ≤ d ∧ d ≤ cfg.today + 7) ∧
        (cfg.defectSearch ≠ "" → ciContains (pyStr r.defectId) cfg.defectSearch = true) ∧
        (cfg.selectedFacility ≠ "All" → r.facility = some cfg.selectedFacility) ∧
        (cfg.selectedServiceLine ≠ "All" → r.serviceLine = some cfg.selectedServiceLine) ∧
        (cfg.selectedAsa ≠ "All" → ciContains (pyStr r.asaAssigned) cfg.selectedAsa = true) ∧
        (cfg.opwSearch ≠ "" → ciContains (pyStr r.opw) cfg.opwSearch = true) ∧
        (cfg.ipSearch ≠ "" →
          (ciContains (pyStr r.opw) cfg.ipSearch = true ∨
           ciContains (pyStr r.comments) cfg.ipSearch = true))) ∧
    applyFilters cfgIpSearchZzz [rowNanOpw] = [] := by
  constructor
  · intro cfg rows r
    simp only [applyFilters, mem_filterIf, weekKickoffPred_iff, and_assoc,
      beq_iff_eq, Bool.or_eq_true, List.contains, List.elem_iff, decide_eq_true_eq]
  · decide

/-- C8: exporting a derived row to CSV and re-loading it with date-column
reparsing reproduces the row — every derived-field value (days since kickoff,
expected completion, status, days until SLA, the milestone durations) and
every milestone date comes back identical, for any derivation input. -/
theorem C8_export_reload_roundtrip (today : Nat) (state : String)
    (kick testing golive : Option Nat) :
    loadRow (writeRow (deriveRow today state kick testing golive))
      = deriveRow today state kick testing golive := by
  simp [loadRow, writeRow, cellToDate_dateToCell, cellToInt_intToCell]
